import Mathlib

/-!
Verification of the real-time messaging relay of the saath backend.

The definitions below are a shallow embedding of the chat subsystem found in
src/index.js (in-memory chatSessions and userSockets tables, the WebSocket
frame handlers, the close handler, the heartbeat sweep, and the
POST /api/chat/connect endpoint) and of the history query of
src/chatRoutes.js (GET /api/chat/messages).

Modelling conventions:
- connection handles (ws objects) are identified by natural numbers;
- user ids and session ids (strings in the code) are natural numbers, and a
  JavaScript falsy/missing field is modelled as Option.none;
- JavaScript objects used as string-keyed tables (chatSessions, userSockets)
  are association lists List (Nat x value) with first-match lookup; key
  assignment overwrites in place and appends new keys at the end, which is
  exactly the enumeration order JavaScript guarantees;
- the per-socket expando fields ws.userId and ws.sessionId are two further
  association lists keyed by the connection handle;
- ws.readyState === OPEN is membership in the openConns field; wss.clients
  is the clients field;
- a Message.save() call is recorded by appending the constructed document to
  the saved field (the persistence attempt and its timestamp; whether the
  asynchronous save later succeeds does not influence the relay).
-/

/-- One entry of the chatSessions table: { users: [...], sockets: [...] }. -/
structure Session where
  users : List Nat
  sockets : List Nat
deriving DecidableEq, Repr

/-- A persisted chat message document (src/models.js messageSchema): the
recipient is Option because the code stores session.users.find(...), which can
be undefined when the session has no second participant. -/
structure MessageRec where
  sender : Nat
  recipient : Option Nat
  content : String
  replyTo : Option Nat
  timestamp : Nat
deriving DecidableEq, Repr

/-- Server-to-client frames produced by the handlers in src/index.js. -/
inductive Frame where
  | registered (userId : Nat)
  | joined (sessionId : Nat)
  | message (fromUser : Nat) (content : String) (replyTo : Option Nat) (timestamp : Nat)
  | notification (fromUser : Nat) (content : String) (replyTo : Option Nat) (timestamp : Nat)
  | pong (timestamp : Nat)
  | errorInvalidJSON
deriving DecidableEq, Repr

/-- Client-to-server frames, as discriminated by the duck-typed dispatch in
the ws message handler of src/index.js. Fields that the code tests for
truthiness are Options. The invalid constructor stands for unparseable JSON,
and other for any parsed object matching no branch. -/
inductive ClientFrame where
  | register (userId : Option Nat)
  | ping
  | join (userId : Option Nat) (sessionId : Option Nat) (otherUserId : Option Nat)
  | message (content : String) (replyTo : Option Nat)
  | invalid
  | other
deriving DecidableEq, Repr

/-- The relay state: the two in-memory tables of src/index.js, the two
per-socket expando fields, the transport state, and the message store. -/
structure State where
  chatSessions : List (Nat × Session)
  userSockets : List (Nat × Nat)
  wsUserId : List (Nat × Nat)
  wsSessionId : List (Nat × Nat)
  clients : List Nat
  openConns : List Nat
  saved : List MessageRec
deriving DecidableEq, Repr

/-- Fresh server state with a given set of connected, open sockets. -/
def initState (conns : List Nat) : State :=
  { chatSessions := [], userSockets := [], wsUserId := [], wsSessionId := [],
    clients := conns, openConns := conns, saved := [] }

/-- Assignment table[k] = v on a JavaScript object modelled as an association
list: overwrite the (unique) existing entry in place, or append a new one. -/
def setEntry {β : Type} : List (Nat × β) → Nat → β → List (Nat × β)
  | [], k, v => [(k, v)]
  | p :: ps, k, v => if p.1 = k then (k, v) :: ps else p :: setEntry ps k v

/-- POST /api/chat/connect (src/index.js). Option.none for a user id models a
missing or falsy field, rejected with 400; the fresh argument stands for the
uuidv4() value used when no session with exactly these two users exists.
Returns (body sessionId or none for the 400 response, new state). -/
def createOrGetSession (st : State) (userId1 userId2 : Option Nat) (fresh : Nat) :
    Option Nat × State :=
  match userId1, userId2 with
  | some u1, some u2 =>
    match st.chatSessions.find? (fun p =>
        p.2.users.contains u1 && p.2.users.contains u2 && p.2.users.length == 2) with
    | some p => (some p.1, st)
    | none =>
      (some fresh,
       { st with chatSessions :=
           st.chatSessions ++ [(fresh, { users := [u1, u2], sockets := [] })] })
  | _, _ => (none, st)

/-- Branch for data.type === register of the ws message handler: requires a
truthy data.userId, updates the registry and the socket tag, acknowledges. -/
def wsRegister (st : State) (ws : Nat) (userId : Option Nat) :
    State × List (Nat × Frame) :=
  match userId with
  | some u =>
    ({ st with userSockets := setEntry st.userSockets u ws,
               wsUserId := setEntry st.wsUserId ws u },
     [(ws, Frame.registered u)])
  | none => (st, [])

/-- Participant list of a session created by a join on an unknown sessionId:
[userId], plus otherUserId when supplied and distinct. -/
def joinNewUsers (u : Nat) (oth : Option Nat) : List Nat :=
  match oth with
  | some o => if o ≠ u then [u, o] else [u]
  | none => [u]

/-- Second half of participant growth on join: push otherUserId if supplied
and not already present. -/
def joinAddOther (u1 : List Nat) (oth : Option Nat) : List Nat :=
  match oth with
  | some o => if o ∈ u1 then u1 else u1 ++ [o]
  | none => u1

/-- Participant list growth of a join on an existing session: push userId if
absent, then push otherUserId if supplied and absent. -/
def joinAddUsers (old : List Nat) (u : Nat) (oth : Option Nat) : List Nat :=
  joinAddOther (if u ∈ old then old else old ++ [u]) oth

/-- Socket eviction run by join over every session: keep s only when s is not
the joining connection and the tag of s differs from the joining userId. -/
def evictSockets (tags : List (Nat × Nat)) (ws u : Nat) (sockets : List Nat) :
    List Nat :=
  sockets.filter (fun s => s != ws && tags.lookup s != some u)

/-- First stage of the join branch on the chatSessions table: create the
session if the sessionId is unknown, otherwise grow its participant list. -/
def joinSessions1 (st : State) (u sid : Nat) (oth : Option Nat) :
    List (Nat × Session) :=
  match st.chatSessions.lookup sid with
  | none =>
    st.chatSessions ++ [(sid, { users := joinNewUsers u oth, sockets := [] })]
  | some session =>
    setEntry st.chatSessions sid
      ({ session with users := joinAddUsers session.users u oth } : Session)

/-- Second stage of the join branch: run the eviction filter over the socket
set of every session (Object.values(chatSessions).forEach in the code). -/
def joinSessions2 (st : State) (ws u sid : Nat) (oth : Option Nat) :
    List (Nat × Session) :=
  (joinSessions1 st u sid oth).map
    (fun p => (p.1, { users := p.2.users,
                      sockets := evictSockets st.wsUserId ws u p.2.sockets }))

/-- Third stage of the join branch: session.sockets.push(ws) on the (unique)
entry of the joined sessionId. The none arm is unreachable because stage one
always installs an entry for sid. -/
def joinSessions3 (st : State) (ws u sid : Nat) (oth : Option Nat) :
    List (Nat × Session) :=
  match (joinSessions2 st ws u sid oth).lookup sid with
  | some s2 =>
    setEntry (joinSessions2 st ws u sid oth) sid
      ({ s2 with sockets := s2.sockets ++ [ws] } : Session)
  | none => joinSessions2 st ws u sid oth

/-- Branch for data.type === join of the ws message handler: requires truthy
userId and sessionId; registers the socket, creates or grows the session,
evicts stale sockets everywhere, tags the socket, attaches it, acknowledges. -/
def wsJoin (st : State) (ws : Nat) (userId sessionId otherUserId : Option Nat) :
    State × List (Nat × Frame) :=
  match userId, sessionId with
  | some u, some sid =>
    ({ st with chatSessions := joinSessions3 st ws u sid otherUserId,
               userSockets := setEntry st.userSockets u ws,
               wsUserId := setEntry st.wsUserId ws u,
               wsSessionId := setEntry st.wsSessionId ws sid },
     [(ws, Frame.joined sid)])
  | _, _ => (st, [])

/-- Branch for data.type === message of the ws message handler: guarded by
truthy ws.sessionId and ws.userId and an existing session; builds the Message
document with the current clock value now, saves it, fans the frame out to
every open socket of the session, and sends a notification to the registered
socket of the recipient whenever that socket exists and is open. -/
def wsMessage (st : State) (ws : Nat) (content : String) (replyTo : Option Nat)
    (now : Nat) : State × List (Nat × Frame) :=
  match st.wsSessionId.lookup ws, st.wsUserId.lookup ws with
  | some sid, some uid =>
    match st.chatSessions.lookup sid with
    | some session =>
      let recipientId := session.users.find? (fun v => v != uid)
      let doc : MessageRec :=
        { sender := uid, recipient := recipientId, content := content,
          replyTo := replyTo, timestamp := now }
      let fanout := (session.sockets.filter (fun c => st.openConns.contains c)).map
        (fun c => (c, Frame.message uid content replyTo doc.timestamp))
      let notif :=
        match recipientId with
        | some rid =>
          match st.userSockets.lookup rid with
          | some h =>
            if st.openConns.contains h then
              [(h, Frame.notification uid content replyTo doc.timestamp)]
            else []
          | none => []
        | none => []
      ({ st with saved := st.saved ++ [doc] }, fanout ++ notif)
    | none => (st, [])
  | _, _ => (st, [])

/-- Socket-set pruning of the ws close handler: drop the closing socket from
the socket set of every session. -/
def closeSessions (st : State) (ws : Nat) : List (Nat × Session) :=
  st.chatSessions.map
    (fun p => (p.1, { users := p.2.users,
                      sockets := p.2.sockets.filter (fun s => s != ws) }))

/-- The ws close handler: drop the socket from the socket set of every
session, and delete its registry entry only when the registry still maps its
tagged userId to this very socket (userSockets[ws.userId] === ws). -/
def wsClose (st : State) (ws : Nat) : State :=
  match st.wsUserId.lookup ws with
  | some u =>
    if st.userSockets.lookup u = some ws then
      { st with chatSessions := closeSessions st ws,
                userSockets := st.userSockets.filter (fun p => p.1 != u) }
    else { st with chatSessions := closeSessions st ws }
  | none => { st with chatSessions := closeSessions st ws }

/-- One sweep of the 30-second heartbeat interval: for every client whose
readyState is OPEN, send a transport ping. The sweep reads no pong state and
mutates nothing; the returned list is the set of probed sockets. -/
def heartbeatTick (st : State) : State × List Nat :=
  (st, st.clients.filter (fun c => st.openConns.contains c))

/-- The full duck-typed dispatch of the ws message handler, in source order:
register, ping, join, message; unparseable JSON gets an error reply; any
other frame falls through every branch and does nothing. -/
def handleFrame (st : State) (ws : Nat) (f : ClientFrame) (now : Nat) :
    State × List (Nat × Frame) :=
  match f with
  | ClientFrame.invalid => (st, [(ws, Frame.errorInvalidJSON)])
  | ClientFrame.register u => wsRegister st ws u
  | ClientFrame.ping => (st, [(ws, Frame.pong now)])
  | ClientFrame.join u sid o => wsJoin st ws u sid o
  | ClientFrame.message c r => wsMessage st ws c r now
  | ClientFrame.other => (st, [])

/-- Fold a trace of inbound frames (socket, frame, clock reading) through the
handler, keeping only the state. -/
def applyFrames (st : State) (evs : List (Nat × ClientFrame × Nat)) : State :=
  evs.foldl (fun s e => (handleFrame s e.1 e.2.1 e.2.2).1) st

/-- Fold a trace consisting only of well-formed join frames
(socket, userId, sessionId, optional otherUserId) through the join handler. -/
def applyJoins (st : State) (evs : List (Nat × Nat × Nat × Option Nat)) : State :=
  evs.foldl (fun s e => (wsJoin s e.1 (some e.2.1) (some e.2.2.1) e.2.2.2).1) st

/-- Timestamp carried by a content frame, when it has one. -/
def tsOf : Frame → Option Nat
  | Frame.message _ _ _ t => some t
  | Frame.notification _ _ _ t => some t
  | _ => none

/-- Descending-timestamp comparison used to model sort({ timestamp: -1 }). -/
def tsDescRel (a b : MessageRec) : Prop := b.timestamp ≤ a.timestamp

instance : DecidableRel tsDescRel := fun a b => Nat.decLe b.timestamp a.timestamp

instance : IsTotal MessageRec tsDescRel := ⟨fun a b => Nat.le_total b.timestamp a.timestamp⟩

instance : IsTrans MessageRec tsDescRel := ⟨fun _ _ _ h1 h2 => Nat.le_trans h2 h1⟩

/-- Selection predicate of the GET /api/chat/messages query
(src/chatRoutes.js): an $or over the two (sender, recipient) directions, and
timestamp strictly below before when that parameter is present. -/
def matchQuery (user1 user2 : Nat) (before : Option Nat) (m : MessageRec) : Bool :=
  (m.sender == user1 && m.recipient == some user2 ||
   m.sender == user2 && m.recipient == some user1) &&
  (match before with
   | some b => m.timestamp < b
   | none => true)

/-- GET /api/chat/messages (src/chatRoutes.js): filter the stored messages by
matchQuery, sort by timestamp descending, apply the limit, then reverse into
chronological order. The filter, descending sort and limit are the documented
semantics of the find().sort({ timestamp: -1 }).limit(n) call issued by the
route against the message collection. -/
def findBetween (store : List MessageRec) (user1 user2 limit : Nat)
    (before : Option Nat) : List MessageRec :=
  (((store.filter (matchQuery user1 user2 before)).insertionSort tsDescRel).take
    limit).reverse

/-- Part one of the session-socket invariant: every socket attached to a
session carries a userId tag naming one of the participants of that session. -/
def SockTagOk (st : State) : Prop :=
  ∀ sid sess, st.chatSessions.lookup sid = some sess →
    ∀ s ∈ sess.sockets, ∃ u, st.wsUserId.lookup s = some u ∧ u ∈ sess.users

/-- Part two of the session-socket invariant: across all session socket sets,
at most one socket carries any given userId tag. -/
def SockUnique (st : State) : Prop :=
  ∀ sid1 sess1 sid2 sess2 s1 s2 u,
    st.chatSessions.lookup sid1 = some sess1 →
    st.chatSessions.lookup sid2 = some sess2 →
    s1 ∈ sess1.sockets → s2 ∈ sess2.sockets →
    st.wsUserId.lookup s1 = some u → st.wsUserId.lookup s2 = some u → s1 = s2

/-- The session-socket invariant of the spec, section 3. -/
def RelayInv (st : State) : Prop := SockTagOk st ∧ SockUnique st

/-- Fixture: the P2 scenario state. Users 1 (alice, socket 0) and 2 (bob,
socket 1) have both joined session 100 and are both registered. -/
def exP2State : State :=
  { chatSessions := [(100, { users := [1, 2], sockets := [0, 1] })],
    userSockets := [(1, 0), (2, 1)],
    wsUserId := [(0, 1), (1, 2)],
    wsSessionId := [(0, 100), (1, 100)],
    clients := [0, 1], openConns := [0, 1], saved := [] }

/-- Fixture: the P3 scenario state. User 1 (socket 0) joined session 100;
user 2 (socket 1) is registered but never joined. -/
def exP3State : State :=
  { chatSessions := [(100, { users := [1, 2], sockets := [0] })],
    userSockets := [(1, 0), (2, 1)],
    wsUserId := [(0, 1), (1, 2)],
    wsSessionId := [(0, 100)],
    clients := [0, 1], openConns := [0, 1], saved := [] }

/-- Fixture: a stale-close scenario. Socket 0 is an old connection of user 1,
already superseded in the registry by socket 5. -/
def exStaleState : State :=
  { chatSessions := [(100, { users := [1, 2], sockets := [0, 5] })],
    userSockets := [(1, 5), (2, 7)],
    wsUserId := [(0, 1), (5, 1), (7, 2)],
    wsSessionId := [(0, 100), (5, 100)],
    clients := [0, 5, 7], openConns := [0, 5, 7], saved := [] }

/-! Helper lemmas about association-list lookup and list search. -/

theorem lookup_nil {β : Type} (k : Nat) : (([] : List (Nat × β)).lookup k) = none := rfl

theorem lookup_cons {β : Type} (p : Nat × β) (ps : List (Nat × β)) (k : Nat) :
    (p :: ps).lookup k = if k = p.1 then some p.2 else ps.lookup k := by
  obtain ⟨a, b⟩ := p
  by_cases h : k = a
  · simp [List.lookup, h]
  · have hb : (k == a) = false := by simp [h]
    simp [List.lookup, hb, h]

theorem lookup_setEntry {β : Type} (l : List (Nat × β)) (k : Nat) (v : β) (k2 : Nat) :
    (setEntry l k v).lookup k2 = if k2 = k then some v else l.lookup k2 := by
  induction l with
  | nil => rw [setEntry, lookup_cons, lookup_nil]
  | cons p ps ih =>
    rw [setEntry]
    by_cases hp : p.1 = k
    · rw [if_pos hp, lookup_cons, lookup_cons]
      by_cases h : k2 = k
      · rw [if_pos h, if_pos h]
      · rw [if_neg h, if_neg h, if_neg (fun h2 => h (h2.trans hp))]
    · rw [if_neg hp, lookup_cons, ih]
      by_cases h : k2 = p.1
      · have hk : ¬k2 = k := fun h2 => hp (h ▸ h2)
        rw [if_pos h, if_neg hk, lookup_cons, if_pos h]
      · rw [if_neg h, lookup_cons, if_neg h]

theorem lookup_map_kv {β γ : Type} (f : β → γ) (l : List (Nat × β)) (k : Nat) :
    (l.map (fun p => (p.1, f p.2))).lookup k = (l.lookup k).map f := by
  induction l with
  | nil => rfl
  | cons p ps ih =>
    rw [List.map_cons, lookup_cons, lookup_cons, ih]
    by_cases h : k = p.1
    · rw [if_pos h, if_pos h]; rfl
    · rw [if_neg h, if_neg h]

theorem lookup_append_some {β : Type} (l1 l2 : List (Nat × β)) (k : Nat) (v : β)
    (h : l1.lookup k = some v) : (l1 ++ l2).lookup k = some v := by
  induction l1 with
  | nil => rw [lookup_nil] at h; cases h
  | cons p ps ih =>
    rw [lookup_cons] at h
    rw [List.cons_append, lookup_cons]
    by_cases hp : k = p.1
    · rw [if_pos hp]; rw [if_pos hp] at h; exact h
    · rw [if_neg hp]; rw [if_neg hp] at h; exact ih h

theorem lookup_append_none {β : Type} (l1 l2 : List (Nat × β)) (k : Nat)
    (h : l1.lookup k = none) : (l1 ++ l2).lookup k = l2.lookup k := by
  induction l1 with
  | nil => rw [List.nil_append]
  | cons p ps ih =>
    rw [lookup_cons] at h
    rw [List.cons_append, lookup_cons]
    by_cases hp : k = p.1
    · rw [if_pos hp] at h; cases h
    · rw [if_neg hp]; rw [if_neg hp] at h; exact ih h

theorem lookup_single {β : Type} (k : Nat) (v : β) (k2 : Nat) :
    ([(k, v)] : List (Nat × β)).lookup k2 = if k2 = k then some v else none := by
  rw [lookup_cons, lookup_nil]

theorem lookup_eraseKey {β : Type} (l : List (Nat × β)) (u k : Nat) :
    (l.filter (fun p => p.1 != u)).lookup k = if k = u then none else l.lookup k := by
  induction l with
  | nil =>
    rw [List.filter_nil]
    by_cases h : k = u
    · rw [if_pos h]; rfl
    · rw [if_neg h]
  | cons p ps ih =>
    rw [List.filter_cons]
    by_cases hp : p.1 = u
    · have hb : (p.1 != u) = false := by simp [hp]
      rw [hb, if_neg Bool.false_ne_true, ih, lookup_cons]
      by_cases h : k = u
      · rw [if_pos h, if_pos h]
      · rw [if_neg h, if_neg h, if_neg (fun h2 => h (h2.trans hp))]
    · have hb : (p.1 != u) = true := by simp [hp]
      rw [hb, if_pos rfl, lookup_cons, lookup_cons, ih]
      by_cases h : k = p.1
      · have hk : ¬k = u := fun h2 => hp (h ▸ h2)
        rw [if_pos h, if_pos h, if_neg hk]
      · rw [if_neg h, if_neg h]

theorem find?_ext {α : Type} (p q : α → Bool) (l : List α) (h : ∀ a, p a = q a) :
    l.find? p = l.find? q := by
  induction l with
  | nil => rfl
  | cons a as ih =>
    cases ha : p a <;> rw [List.find?_cons, List.find?_cons, ← h a, ha, ih]

theorem find?_append_none {α : Type} (p : α → Bool) (l1 l2 : List α)
    (h : l1.find? p = none) : (l1 ++ l2).find? p = l2.find? p := by
  induction l1 with
  | nil => rw [List.nil_append]
  | cons a as ih =>
    rw [List.find?_cons] at h
    rw [List.cons_append, List.find?_cons]
    cases ha : p a
    · rw [ha] at h; exact ih h
    · rw [ha] at h; cases h

/-! Characterization of the join branch on the chatSessions table. -/

/-- Value of the joined session after stage one: fresh participant list on an
unknown sessionId, grown participant list with the old sockets otherwise. -/
def joinBaseSession (st : State) (u sid : Nat) (oth : Option Nat) : Session :=
  match st.chatSessions.lookup sid with
  | none => { users := joinNewUsers u oth, sockets := [] }
  | some session =>
    { users := joinAddUsers session.users u oth, sockets := session.sockets }

/-- Value of the joined session after the full join branch: grown participant
list, surviving sockets after eviction, and the joining socket appended. -/
def joinedSession (st : State) (ws u sid : Nat) (oth : Option Nat) : Session :=
  { users := (joinBaseSession st u sid oth).users,
    sockets :=
      evictSockets st.wsUserId ws u (joinBaseSession st u sid oth).sockets ++ [ws] }

theorem joinSessions1_lookup (st : State) (u sid : Nat) (oth : Option Nat) (k : Nat) :
    (joinSessions1 st u sid oth).lookup k =
      if k = sid then some (joinBaseSession st u sid oth)
      else st.chatSessions.lookup k := by
  unfold joinSessions1 joinBaseSession
  cases h0 : st.chatSessions.lookup sid with
  | none =>
    by_cases h : k = sid
    · subst h
      rw [lookup_append_none st.chatSessions _ k h0, lookup_single, if_pos rfl,
          if_pos rfl]
    · rw [if_neg h]
      cases h1 : st.chatSessions.lookup k with
      | none => rw [lookup_append_none st.chatSessions _ k h1, lookup_single, if_neg h]
      | some w => rw [lookup_append_some st.chatSessions _ k w h1]
  | some session =>
    rw [lookup_setEntry]

theorem joinSessions2_lookup (st : State) (ws u sid : Nat) (oth : Option Nat)
    (k : Nat) :
    (joinSessions2 st ws u sid oth).lookup k =
      ((joinSessions1 st u sid oth).lookup k).map
        (fun sess =>
          ({ users := sess.users,
             sockets := evictSockets st.wsUserId ws u sess.sockets } : Session)) := by
  unfold joinSessions2
  exact lookup_map_kv (fun sess =>
    ({ users := sess.users,
       sockets := evictSockets st.wsUserId ws u sess.sockets } : Session))
    (joinSessions1 st u sid oth) k

theorem joinSessions3_lookup (st : State) (ws u sid : Nat) (oth : Option Nat)
    (k : Nat) :
    (joinSessions3 st ws u sid oth).lookup k =
      if k = sid then some (joinedSession st ws u sid oth)
      else (st.chatSessions.lookup k).map
        (fun sess =>
          ({ users := sess.users,
             sockets := evictSockets st.wsUserId ws u sess.sockets } : Session)) := by
  have h2 : (joinSessions2 st ws u sid oth).lookup sid =
      some ({ users := (joinBaseSession st u sid oth).users,
              sockets :=
                evictSockets st.wsUserId ws u (joinBaseSession st u sid oth).sockets } :
            Session) := by
    rw [joinSessions2_lookup, joinSessions1_lookup, if_pos rfl, Option.map_some']
  unfold joinSessions3
  simp only [h2]
  rw [lookup_setEntry]
  by_cases h : k = sid
  · rw [if_pos h, if_pos h]
    rfl
  · rw [if_neg h, if_neg h, joinSessions2_lookup, joinSessions1_lookup, if_neg h]

theorem wsJoin_state (st : State) (ws u sid : Nat) (oth : Option Nat) :
    (wsJoin st ws (some u) (some sid) oth).1 =
      { st with chatSessions := joinSessions3 st ws u sid oth,
                userSockets := setEntry st.userSockets u ws,
                wsUserId := setEntry st.wsUserId ws u,
                wsSessionId := setEntry st.wsSessionId ws sid } := rfl

/-! Claim theorems. -/

/-- C2: the Liveness Monitor sweep only sends transport pings to open
connections; it reads no acknowledgment state and removes nothing, so after
two (indeed any number of) monitor intervals the whole relay state — every
session socket set and the whole Socket Registry — is exactly what it was.
A connection that stops acknowledging probes is therefore never cleaned up by
the monitor; only the transport close event triggers cleanup. -/
theorem heartbeat_sweep_removes_nothing (st : State) :
    (heartbeatTick ((heartbeatTick st).1)).1 = st ∧
    (heartbeatTick st).2 = st.clients.filter (fun c => st.openConns.contains c) :=
  ⟨rfl, rfl⟩

/-- C3 counterexample: two equal, present user ids are not rejected — the
bootstrap call returns a fresh session id (an HTTP 200 with a body), not the
InvalidArgument failure the claim requires for equal ids. -/
theorem createOrGetSession_equal_ids_accepted :
    (createOrGetSession (initState []) (some 1) (some 1) 42).1 = some 42 := rfl

/-- C3 amended: createOrGetSession answers the 4xx InvalidArgument response
exactly when one of the two user ids is missing (falsy); two equal present
ids are accepted and allocate or find a session. -/
theorem createOrGetSession_fails_iff_missing (st : State)
    (userId1 userId2 : Option Nat) (fresh : Nat) :
    (createOrGetSession st userId1 userId2 fresh).1 = none ↔
      userId1 = none ∨ userId2 = none := by
  cases userId1 with
  | none => simp [createOrGetSession]
  | some u1 =>
    cases userId2 with
    | none => simp [createOrGetSession]
    | some u2 =>
      cases h : st.chatSessions.find? (fun p =>
          p.2.users.contains u1 && p.2.users.contains u2 && p.2.users.length == 2) with
      | none =>
        unfold createOrGetSession
        dsimp only
        rw [h]
        simp
      | some q =>
        unfold createOrGetSession
        dsimp only
        rw [h]
        simp

/-- C8: a message frame on a connection that never completed a join (its
ws.sessionId tag is unset — register sets only ws.userId) is dropped
silently: the state is unchanged, so nothing is persisted, and no frame of
any kind is sent to anyone, the sender included. -/
theorem wsMessage_unjoined_dropped (st : State) (ws : Nat) (content : String)
    (replyTo : Option Nat) (now : Nat) (h : st.wsSessionId.lookup ws = none) :
    wsMessage st ws content replyTo now = (st, []) := by
  unfold wsMessage
  rw [h]

/-- C8 witness: a concrete connection that registered but never joined. -/
theorem wsMessage_unjoined_dropped_w :
    ((wsRegister (initState [0]) 0 (some 1)).1.wsSessionId.lookup 0 = none) ∧
    wsMessage (wsRegister (initState [0]) 0 (some 1)).1 0 "hello" none 3 =
      ((wsRegister (initState [0]) 0 (some 1)).1, []) :=
  ⟨by decide,
   wsMessage_unjoined_dropped (wsRegister (initState [0]) 0 (some 1)).1 0 "hello"
     none 3 (by decide)⟩

/-- C10: closing a connection removes it from the socket set of every session
(and changes nothing else there), and deletes a Socket-Registry entry only
when the registry still maps the tagged userId of the closing connection to
that very connection; in every other case — in particular for a stale
connection already superseded by a newer register or join — every registry
entry is left unchanged. -/
theorem wsClose_effect (st : State) (ws : Nat) :
    (∀ sid : Nat, (wsClose st ws).chatSessions.lookup sid =
      (st.chatSessions.lookup sid).map
        (fun sess => ({ users := sess.users,
                        sockets := sess.sockets.filter (fun s => s != ws) } : Session))) ∧
    (∀ u : Nat, (wsClose st ws).userSockets.lookup u =
      if st.wsUserId.lookup ws = some u ∧ st.userSockets.lookup u = some ws
      then none else st.userSockets.lookup u) := by
  have hc : ∀ sid : Nat, (closeSessions st ws).lookup sid =
      (st.chatSessions.lookup sid).map
        (fun sess => ({ users := sess.users,
                        sockets := sess.sockets.filter (fun s => s != ws) } : Session)) := by
    intro sid
    unfold closeSessions
    exact lookup_map_kv (fun sess =>
      ({ users := sess.users,
         sockets := sess.sockets.filter (fun s => s != ws) } : Session))
      st.chatSessions sid
  constructor
  · intro sid
    unfold wsClose
    cases h1 : st.wsUserId.lookup ws with
    | none => exact hc sid
    | some u0 =>
      dsimp only
      by_cases h2 : st.userSockets.lookup u0 = some ws
      · rw [if_pos h2]; exact hc sid
      · rw [if_neg h2]; exact hc sid
  · intro u
    unfold wsClose
    cases h1 : st.wsUserId.lookup ws with
    | none =>
      rw [if_neg (fun hc2 => Option.noConfusion hc2.1)]
    | some u0 =>
      dsimp only
      by_cases h2 : st.userSockets.lookup u0 = some ws
      · rw [if_pos h2]
        show (st.userSockets.filter (fun p => p.1 != u0)).lookup u = _
        rw [lookup_eraseKey]
        by_cases h3 : u = u0
        · subst h3
          rw [if_pos rfl, if_pos ⟨rfl, h2⟩]
        · rw [if_neg h3, if_neg (fun hc2 => h3 (Option.some.inj hc2.1).symm)]
      · rw [if_neg h2]
        rw [if_neg (fun hc2 => h2 (by rw [Option.some.inj hc2.1]; exact hc2.2))]

/-- C10 witness: closing the stale socket 0 of user 1 (whose registry entry
already points at socket 5) leaves the registry entry of user 1 unchanged. -/
theorem wsClose_effect_w :
    (wsClose exStaleState 0).userSockets.lookup 1 =
      if exStaleState.wsUserId.lookup 0 = some 1 ∧
         exStaleState.userSockets.lookup 1 = some 0
      then none else exStaleState.userSockets.lookup 1 :=
  (wsClose_effect exStaleState 0).2 1

/-- C7: one message frame produces at most one persistence attempt, and every
frame the relay emits for it — each step-3 fan-out frame and the step-4
notification frame — carries exactly the timestamp assigned to the persisted
Message document when it was built (the clock is read once, before save). -/
theorem wsMessage_single_timestamp (st : State) (ws : Nat) (content : String)
    (replyTo : Option Nat) (now : Nat) :
    ((wsMessage st ws content replyTo now).1.saved = st.saved ∧
     (wsMessage st ws content replyTo now).2 = []) ∨
    (∃ doc : MessageRec,
      (wsMessage st ws content replyTo now).1.saved = st.saved ++ [doc] ∧
      doc.timestamp = now ∧
      ∀ p ∈ (wsMessage st ws content replyTo now).2, tsOf p.2 = some doc.timestamp) := by
  unfold wsMessage
  cases h1 : st.wsSessionId.lookup ws with
  | none => exact Or.inl ⟨rfl, rfl⟩
  | some sid =>
    cases h2 : st.wsUserId.lookup ws with
    | none => exact Or.inl ⟨rfl, rfl⟩
    | some uid =>
      dsimp only
      cases h3 : st.chatSessions.lookup sid with
      | none => exact Or.inl ⟨rfl, rfl⟩
      | some session =>
        dsimp only
        refine Or.inr ⟨_, rfl, rfl, ?_⟩
        intro p hp
        rcases List.mem_append.mp hp with hf | hn
        · rcases List.mem_map.mp hf with ⟨c, hc, hpc⟩
          rw [← hpc]
          rfl
        · cases hr : session.users.find? (fun v => v != uid) with
          | none =>
            rw [hr] at hn
            cases hn
          | some rid =>
            rw [hr] at hn
            dsimp only at hn
            cases hl : st.userSockets.lookup rid with
            | none =>
              rw [hl] at hn
              cases hn
            | some hh =>
              rw [hl] at hn
              dsimp only at hn
              by_cases hc : st.openConns.contains hh = true
              · rw [if_pos hc] at hn
                rcases List.mem_singleton.mp hn with rfl
                rfl
              · rw [if_neg hc] at hn
                cases hn

/-- C1 counterexample: in the P2 state (both participants joined, bob is
registered and his registered socket 1 sits in the session socket set), a
message from alice reaches socket 1 as a step-3 fan-out frame and socket 1
nevertheless also receives a step-4 notification frame — the code never
checks the socket set before notifying. -/
theorem notification_despite_fanout_cex :
    (1, Frame.message 1 "hi" none 7) ∈ (wsMessage exP2State 0 "hi" none 7).2 ∧
    (1, Frame.notification 1 "hi" none 7) ∈ (wsMessage exP2State 0 "hi" none 7).2 :=
  ⟨by decide, by decide⟩

/-- C1 amended: for a joined connection in an existing session, the recipient
notification frame goes to socket k exactly when the session has a recipient,
the Socket Registry maps that recipient to k, and k is open — regardless of
whether k already received the step-3 fan-out (membership in the session
socket set plays no role). -/
theorem wsMessage_notification_iff (st : State) (ws sid uid k : Nat)
    (sess : Session) (content : String) (replyTo : Option Nat) (now : Nat)
    (h1 : st.wsSessionId.lookup ws = some sid)
    (h2 : st.wsUserId.lookup ws = some uid)
    (h3 : st.chatSessions.lookup sid = some sess) :
    ((k, Frame.notification uid content replyTo now) ∈
      (wsMessage st ws content replyTo now).2) ↔
      ∃ rid, sess.users.find? (fun v => v != uid) = some rid ∧
        st.userSockets.lookup rid = some k ∧ st.openConns.contains k = true := by
  unfold wsMessage
  rw [h1, h2]
  dsimp only
  rw [h3]
  dsimp only
  cases hr : sess.users.find? (fun v => v != uid) with
  | none => simp
  | some rid =>
    dsimp only
    cases hl : st.userSockets.lookup rid with
    | none => simp [hl]
    | some hh =>
      simp [hl]
      exact ⟨fun h4 => ⟨h4.2.symm, by rw [h4.2]; exact h4.1⟩,
             fun h4 => ⟨by rw [h4.1]; exact h4.2, h4.1.symm⟩⟩

/-- C1 witness: the P3 out-of-conversation alert — bob (user 2) is registered
on socket 1 but not in the session, and the notification is sent there. -/
theorem wsMessage_notification_iff_w :
    (1, Frame.notification 1 "hi" none 7) ∈ (wsMessage exP3State 0 "hi" none 7).2 :=
  (wsMessage_notification_iff exP3State 0 100 1 1
    { users := [1, 2], sockets := [0] } "hi" none 7
    (by decide) (by decide) (by decide)).mpr ⟨2, by decide, by decide, by decide⟩

/-- Predicate symmetry of the bootstrap lookup: swapping the two user ids
gives a pointwise-equal session filter. -/
theorem bootstrapPredSymm (u1 u2 : Nat) (p : Nat × Session) :
    (p.2.users.contains u2 && p.2.users.contains u1 && p.2.users.length == 2) =
    (p.2.users.contains u1 && p.2.users.contains u2 && p.2.users.length == 2) := by
  cases h1 : p.2.users.contains u1 <;> cases h2 : p.2.users.contains u2 <;> rfl

/-- C4: the session bootstrap is idempotent and argument-order-insensitive —
with both ids present, the first call returns a session id; repeating the
call on the resulting state, in either argument order, returns the same id
and leaves the state untouched; and when no session for the pair existed, the
first call installs under the fresh id a session whose participant list is
exactly the pair. The freshness hypothesis models uuidv4 never colliding
with an existing session id. -/
theorem createOrGetSession_idempotent (st : State) (u1 u2 f1 f2 : Nat)
    (hne : u1 ≠ u2) (hf : st.chatSessions.lookup f1 = none) :
    (createOrGetSession st (some u1) (some u2) f1).1.isSome = true ∧
    createOrGetSession (createOrGetSession st (some u1) (some u2) f1).2
        (some u2) (some u1) f2 =
      createOrGetSession st (some u1) (some u2) f1 ∧
    createOrGetSession (createOrGetSession st (some u1) (some u2) f1).2
        (some u1) (some u2) f2 =
      createOrGetSession st (some u1) (some u2) f1 ∧
    (st.chatSessions.find? (fun p =>
        p.2.users.contains u1 && p.2.users.contains u2 && p.2.users.length == 2) =
          none →
      (createOrGetSession st (some u1) (some u2) f1).2.chatSessions.lookup f1 =
        some { users := [u1, u2], sockets := [] }) := by
  cases hfind : st.chatSessions.find? (fun p =>
      p.2.users.contains u1 && p.2.users.contains u2 && p.2.users.length == 2) with
  | some q =>
    have e : createOrGetSession st (some u1) (some u2) f1 = (some q.1, st) := by
      unfold createOrGetSession
      dsimp only
      rw [hfind]
    have e2 : createOrGetSession st (some u2) (some u1) f2 = (some q.1, st) := by
      unfold createOrGetSession
      dsimp only
      rw [find?_ext _ _ st.chatSessions (bootstrapPredSymm u1 u2), hfind]
    have e3 : createOrGetSession st (some u1) (some u2) f2 = (some q.1, st) := by
      unfold createOrGetSession
      dsimp only
      rw [hfind]
    refine ⟨by rw [e]; rfl, ?_, ?_, ?_⟩
    · rw [e]
      exact e2
    · rw [e]
      exact e3
    · intro h
      exact Option.noConfusion h
  | none =>
    have e : createOrGetSession st (some u1) (some u2) f1 =
        (some f1,
         { st with chatSessions :=
             st.chatSessions ++ [(f1, { users := [u1, u2], sockets := [] })] }) := by
      unfold createOrGetSession
      dsimp only
      rw [hfind]
    have h21 : ((st.chatSessions ++
        [(f1, ({ users := [u1, u2], sockets := [] } : Session))]).find? (fun p =>
          p.2.users.contains u2 && p.2.users.contains u1 && p.2.users.length == 2)) =
        some (f1, ({ users := [u1, u2], sockets := [] } : Session)) := by
      rw [find?_append_none _ _ _
        ((find?_ext _ _ st.chatSessions (bootstrapPredSymm u1 u2)).trans hfind)]
      rw [List.find?_cons]
      have hb : ((([u1, u2] : List Nat).contains u2 &&
          ([u1, u2] : List Nat).contains u1 && (([u1, u2] : List Nat).length == 2))) =
          true := by simp
      dsimp only
      rw [hb]
    have h12 : ((st.chatSessions ++
        [(f1, ({ users := [u1, u2], sockets := [] } : Session))]).find? (fun p =>
          p.2.users.contains u1 && p.2.users.contains u2 && p.2.users.length == 2)) =
        some (f1, ({ users := [u1, u2], sockets := [] } : Session)) := by
      rw [find?_append_none _ _ _ hfind]
      rw [List.find?_cons]
      have hb : ((([u1, u2] : List Nat).contains u1 &&
          ([u1, u2] : List Nat).contains u2 && (([u1, u2] : List Nat).length == 2))) =
          true := by simp
      dsimp only
      rw [hb]
    refine ⟨by rw [e]; rfl, ?_, ?_, ?_⟩
    · rw [e]
      unfold createOrGetSession
      dsimp only
      rw [h21]
    · rw [e]
      unfold createOrGetSession
      dsimp only
      rw [h12]
    · intro _
      rw [e]
      dsimp only
      rw [lookup_append_none _ _ _ hf, lookup_single, if_pos rfl]

/-- C4 witness: two users bootstrap on a fresh server. -/
theorem createOrGetSession_idempotent_w :
    (createOrGetSession (initState []) (some 1) (some 2) 5).1.isSome = true ∧
    createOrGetSession (createOrGetSession (initState []) (some 1) (some 2) 5).2
        (some 2) (some 1) 9 =
      createOrGetSession (initState []) (some 1) (some 2) 5 ∧
    createOrGetSession (createOrGetSession (initState []) (some 1) (some 2) 5).2
        (some 1) (some 2) 9 =
      createOrGetSession (initState []) (some 1) (some 2) 5 ∧
    ((initState []).chatSessions.find? (fun p =>
        p.2.users.contains 1 && p.2.users.contains 2 && p.2.users.length == 2) =
          none →
      (createOrGetSession (initState []) (some 1) (some 2) 5).2.chatSessions.lookup 5 =
        some { users := [1, 2], sockets := [] }) :=
  createOrGetSession_idempotent (initState []) 1 2 5 9 (by decide) (by decide)

/-- A session created by join on an unknown sessionId has at most two
participants. -/
theorem joinNewUsers_length (u : Nat) (oth : Option Nat) :
    (joinNewUsers u oth).length ≤ 2 := by
  cases oth with
  | none => simp [joinNewUsers]
  | some o =>
    simp only [joinNewUsers]
    split <;> simp

/-- The joining user is a participant of a session created by its join. -/
theorem mem_joinNewUsers_self (u : Nat) (oth : Option Nat) :
    u ∈ joinNewUsers u oth := by
  cases oth with
  | none => exact List.mem_singleton_self u
  | some o =>
    simp only [joinNewUsers]
    split
    · exact List.mem_cons_self u [o]
    · exact List.mem_singleton_self u

/-- Membership survives the otherUserId push. -/
theorem mem_joinAddOther (u1 : List Nat) (oth : Option Nat) (x : Nat)
    (hx : x ∈ u1) : x ∈ joinAddOther u1 oth := by
  cases oth with
  | none => exact hx
  | some o =>
    simp only [joinAddOther]
    split
    · exact hx
    · exact List.mem_append_left _ hx

/-- Participant growth on join never loses a participant. -/
theorem joinAddUsers_subset (old : List Nat) (u : Nat) (oth : Option Nat) :
    ∀ x ∈ old, x ∈ joinAddUsers old u oth := by
  intro x hx
  unfold joinAddUsers
  apply mem_joinAddOther
  by_cases hm : u ∈ old
  · rw [if_pos hm]; exact hx
  · rw [if_neg hm]; exact List.mem_append_left _ hx

/-- The joining user is a participant after joining an existing session. -/
theorem mem_joinAddUsers_self (old : List Nat) (u : Nat) (oth : Option Nat) :
    u ∈ joinAddUsers old u oth := by
  unfold joinAddUsers
  apply mem_joinAddOther
  by_cases hm : u ∈ old
  · rw [if_pos hm]; exact hm
  · rw [if_neg hm]; exact List.mem_append_right _ (List.mem_singleton_self u)

/-- C5 counterexample: after bootstrapping session 100 for users 1 and 2, a
join frame from a third user 3 naming that sessionId pushes 3 into the
participant list — the two-participant bound is not preserved by join. -/
theorem join_exceeds_two_participants_cex :
    ∃ sess : Session,
      (wsJoin (createOrGetSession (initState [0]) (some 1) (some 2) 100).2
          0 (some 3) (some 100) none).1.chatSessions.lookup 100 = some sess ∧
      2 < sess.users.length :=
  ⟨{ users := [1, 2, 3], sockets := [0] }, by decide, by decide⟩

/-- C5 amended: every session creation path respects the two-participant
bound — the bootstrap API installs exactly the pair, and a join on an unknown
sessionId installs at most the joiner and one distinct other user — and join
never removes a participant (participant lists grow append-only); but a join
naming an existing session can push an unvalidated third participant, so the
bound is an initial property, not an invariant preserved by join. -/
theorem session_participants_bound :
    (∀ (st : State) (userId1 userId2 : Option Nat) (fresh sid : Nat)
        (sess : Session),
      (createOrGetSession st userId1 userId2 fresh).2.chatSessions.lookup sid =
        some sess →
      st.chatSessions.lookup sid = some sess ∨ sess.users.length ≤ 2) ∧
    (∀ (st : State) (ws u sid : Nat) (oth : Option Nat) (sid2 : Nat)
        (sess : Session),
      (wsJoin st ws (some u) (some sid) oth).1.chatSessions.lookup sid2 =
        some sess →
      (st.chatSessions.lookup sid2 = none → sess.users.length ≤ 2) ∧
      (∀ old : Session, st.chatSessions.lookup sid2 = some old →
        ∀ x ∈ old.users, x ∈ sess.users)) := by
  constructor
  · intro st userId1 userId2 fresh sid sess h
    cases userId1 with
    | none => exact Or.inl h
    | some u1 =>
      cases userId2 with
      | none => exact Or.inl h
      | some u2 =>
        unfold createOrGetSession at h
        dsimp only at h
        cases hfind : st.chatSessions.find? (fun p =>
            p.2.users.contains u1 && p.2.users.contains u2 &&
              p.2.users.length == 2) with
        | some q =>
          rw [hfind] at h
          exact Or.inl h
        | none =>
          rw [hfind] at h
          dsimp only at h
          cases h1 : st.chatSessions.lookup sid with
          | some w =>
            rw [lookup_append_some _ _ _ _ h1] at h
            exact Or.inl h
          | none =>
            rw [lookup_append_none _ _ _ h1, lookup_single] at h
            by_cases h2 : sid = fresh
            · rw [if_pos h2] at h
              rw [← Option.some.inj h]
              exact Or.inr Nat.le.refl
            · rw [if_neg h2] at h
              cases h
  · intro st ws u sid oth sid2 sess h
    have e : (wsJoin st ws (some u) (some sid) oth).1.chatSessions =
        joinSessions3 st ws u sid oth := rfl
    rw [e, joinSessions3_lookup] at h
    by_cases h2 : sid2 = sid
    · rw [if_pos h2] at h
      have hsess : sess = joinedSession st ws u sid oth := (Option.some.inj h).symm
      subst h2
      constructor
      · intro hnone
        rw [hsess]
        unfold joinedSession joinBaseSession
        rw [hnone]
        exact joinNewUsers_length u oth
      · intro old hold
        rw [hsess]
        unfold joinedSession joinBaseSession
        rw [hold]
        dsimp only
        exact joinAddUsers_subset old.users u oth
    · rw [if_neg h2] at h
      cases h1 : st.chatSessions.lookup sid2 with
      | none =>
        rw [h1] at h
        cases h
      | some old2 =>
        rw [h1] at h
        rw [Option.map_some'] at h
        have hs : sess =
            Session.mk old2.users (evictSockets st.wsUserId ws u old2.sockets) :=
          (Option.some.inj h).symm
        constructor
        · intro hnone
          exact Option.noConfusion hnone
        · intro old hold
          have ho : old2 = old := Option.some.inj hold
          subst ho
          rw [hs]
          intro x hx
          exact hx

/-- C5 witness: the bootstrap creation bound at a concrete fresh state. -/
theorem session_participants_bound_w :
    (initState []).chatSessions.lookup 7 =
        some ({ users := [1, 2], sockets := [] } : Session) ∨
      (({ users := [1, 2], sockets := [] } : Session)).users.length ≤ 2 :=
  session_participants_bound.1 (initState []) (some 1) (some 2) 7 7
    { users := [1, 2], sockets := [] } (by decide)

/-- Membership in the post-eviction socket set. -/
theorem mem_evictSockets (tags : List (Nat × Nat)) (ws u s : Nat) (l : List Nat) :
    s ∈ evictSockets tags ws u l ↔
      s ∈ l ∧ s ≠ ws ∧ tags.lookup s ≠ some u := by
  unfold evictSockets
  simp only [List.mem_filter, Bool.and_eq_true, bne_iff_ne, ne_eq, and_assoc]

/-- Where a socket in some session socket set after a join can come from:
either it is the joining socket, attached to the joined session with the
joining user among the participants, or it survived the eviction filter — it
was already attached to the same session, it is not the joining socket, its
tag is not the joining userId, and the participant list only grew. -/
theorem join_socket_origin (st : State) (ws u sid : Nat) (oth : Option Nat)
    (sid2 : Nat) (sess : Session) (sock : Nat)
    (hl : (joinSessions3 st ws u sid oth).lookup sid2 = some sess)
    (hs : sock ∈ sess.sockets) :
    (sock = ws ∧ sid2 = sid ∧ u ∈ sess.users) ∨
    (sock ≠ ws ∧ st.wsUserId.lookup sock ≠ some u ∧
      ∃ old : Session, st.chatSessions.lookup sid2 = some old ∧
        sock ∈ old.sockets ∧ ∀ x ∈ old.users, x ∈ sess.users) := by
  rw [joinSessions3_lookup] at hl
  by_cases h2 : sid2 = sid
  · rw [if_pos h2] at hl
    have hsess : sess = joinedSession st ws u sid oth := (Option.some.inj hl).symm
    subst h2
    rw [hsess] at hs
    rcases List.mem_append.mp hs with hev | hws
    · rw [mem_evictSockets] at hev
      right
      refine ⟨hev.2.1, hev.2.2, ?_⟩
      cases h0 : st.chatSessions.lookup sid2 with
      | none =>
        exfalso
        have hbase : (joinBaseSession st u sid2 oth).sockets = [] := by
          unfold joinBaseSession
          rw [h0]
        rw [hbase] at hev
        exact absurd hev.1 (List.not_mem_nil sock)
      | some old =>
        refine ⟨old, rfl, ?_, ?_⟩
        · have hbase : (joinBaseSession st u sid2 oth).sockets = old.sockets := by
            unfold joinBaseSession
            rw [h0]
          rw [hbase] at hev
          exact hev.1
        · intro x hx
          rw [hsess]
          have hbase : (joinedSession st ws u sid2 oth).users =
              joinAddUsers old.users u oth := by
            unfold joinedSession joinBaseSession
            rw [h0]
          rw [hbase]
          exact joinAddUsers_subset old.users u oth x hx
    · left
      refine ⟨List.mem_singleton.mp hws, rfl, ?_⟩
      rw [hsess]
      cases h0 : st.chatSessions.lookup sid2 with
      | none =>
        have hbase : (joinedSession st ws u sid2 oth).users = joinNewUsers u oth := by
          unfold joinedSession joinBaseSession
          rw [h0]
        rw [hbase]
        exact mem_joinNewUsers_self u oth
      | some old =>
        have hbase : (joinedSession st ws u sid2 oth).users =
            joinAddUsers old.users u oth := by
          unfold joinedSession joinBaseSession
          rw [h0]
        rw [hbase]
        exact mem_joinAddUsers_self old.users u oth
  · rw [if_neg h2] at hl
    cases h0 : st.chatSessions.lookup sid2 with
    | none =>
      rw [h0] at hl
      cases hl
    | some old =>
      rw [h0, Option.map_some'] at hl
      have hsess : sess =
          Session.mk old.users (evictSockets st.wsUserId ws u old.sockets) :=
        (Option.some.inj hl).symm
      rw [hsess] at hs
      have hs2 : sock ∈ evictSockets st.wsUserId ws u old.sockets := hs
      rw [mem_evictSockets] at hs2
      right
      refine ⟨hs2.2.1, hs2.2.2, old, rfl, hs2.1, ?_⟩
      intro x hx
      rw [hsess]
      exact hx

/-- After a well-formed join, the userId tag of the joining socket is the
joining user, and every other tag is unchanged. -/
theorem wsJoin_wsUserId_lookup (st : State) (ws u sid : Nat) (oth : Option Nat)
    (s : Nat) :
    (wsJoin st ws (some u) (some sid) oth).1.wsUserId.lookup s =
      if s = ws then some u else st.wsUserId.lookup s := by
  show (setEntry st.wsUserId ws u).lookup s = _
  exact lookup_setEntry st.wsUserId ws u s

/-- The session-socket invariant is preserved by every join frame (also a
malformed one, which does nothing). -/
theorem relayInv_wsJoin (st : State) (ws : Nat) (uid sidd oth : Option Nat)
    (h : RelayInv st) : RelayInv (wsJoin st ws uid sidd oth).1 := by
  cases uid with
  | none => exact h
  | some u =>
    cases sidd with
    | none => exact h
    | some sid =>
      obtain ⟨hA, hB⟩ := h
      constructor
      · intro sid2 sess hl sock hs
        have hl2 : (joinSessions3 st ws u sid oth).lookup sid2 = some sess := hl
        rcases join_socket_origin st ws u sid oth sid2 sess sock hl2 hs with
          ⟨hws, hsid, hu⟩ | ⟨hne2, hnt, old, hold, hsock, husers⟩
        · refine ⟨u, ?_, hu⟩
          show (setEntry st.wsUserId ws u).lookup sock = some u
          rw [lookup_setEntry, if_pos hws]
        · obtain ⟨u2, ht, hmem⟩ := hA sid2 old hold sock hsock
          refine ⟨u2, ?_, husers u2 hmem⟩
          show (setEntry st.wsUserId ws u).lookup sock = some u2
          rw [lookup_setEntry, if_neg hne2]
          exact ht
      · intro sid1 sess1 sid2 sess2 s1 s2 u2 hl1 hl2 hs1 hs2 ht1 ht2
        have hl1b : (joinSessions3 st ws u sid oth).lookup sid1 = some sess1 := hl1
        have hl2b : (joinSessions3 st ws u sid oth).lookup sid2 = some sess2 := hl2
        have ht1b : (setEntry st.wsUserId ws u).lookup s1 = some u2 := ht1
        have ht2b : (setEntry st.wsUserId ws u).lookup s2 = some u2 := ht2
        rcases join_socket_origin st ws u sid oth sid1 sess1 s1 hl1b hs1 with
          ⟨he1, -, -⟩ | ⟨hn1, hth1, old1, hold1, hsock1, -⟩
        · rcases join_socket_origin st ws u sid oth sid2 sess2 s2 hl2b hs2 with
            ⟨he2, -, -⟩ | ⟨hn2, hth2, old2, hold2, hsock2, -⟩
          · rw [he1, he2]
          · exfalso
            rw [lookup_setEntry, if_pos he1] at ht1b
            rw [lookup_setEntry, if_neg hn2] at ht2b
            have hu : u = u2 := Option.some.inj ht1b
            exact hth2 (by rw [hu]; exact ht2b)
        · rcases join_socket_origin st ws u sid oth sid2 sess2 s2 hl2b hs2 with
            ⟨he2, -, -⟩ | ⟨hn2, hth2, old2, hold2, hsock2, -⟩
          · exfalso
            rw [lookup_setEntry, if_pos he2] at ht2b
            rw [lookup_setEntry, if_neg hn1] at ht1b
            have hu : u = u2 := Option.some.inj ht2b
            exact hth1 (by rw [hu]; exact ht1b)
          · rw [lookup_setEntry, if_neg hn1] at ht1b
            rw [lookup_setEntry, if_neg hn2] at ht2b
            exact hB sid1 old1 sid2 old2 s1 s2 u2 hold1 hold2 hsock1 hsock2 ht1b ht2b

/-- C6 amended: after any sequence of well-formed join frames from a fresh
server (register frames excluded — see the counterexample), every session
satisfies the invariant: each attached socket is tagged with a participant of
that session, and across all sessions at most one socket carries any given
userId tag. -/
theorem applyJoins_invariant (conns : List Nat)
    (evs : List (Nat × Nat × Nat × Option Nat)) :
    RelayInv (applyJoins (initState conns) evs) := by
  have hbase : RelayInv (initState conns) := by
    constructor
    · intro sid sess hl
      exact Option.noConfusion hl
    · intro sid1 sess1 sid2 sess2 s1 s2 u hl1 hl2 hs1 hs2 ht1 ht2
      exact Option.noConfusion hl1
  suffices hstep : ∀ (l : List (Nat × Nat × Nat × Option Nat)) (s : State),
      RelayInv s → RelayInv (applyJoins s l) from hstep evs _ hbase
  intro l
  induction l with
  | nil => intro s hs; exact hs
  | cons e es ih =>
    intro s hs
    exact ih _ (relayInv_wsJoin s e.1 (some e.2.1) (some e.2.2.1) e.2.2.2 hs)

/-- C6 witness: the invariant at a concrete two-user join trace. -/
theorem applyJoins_invariant_w :
    RelayInv (applyJoins (initState [0, 1]) [(0, 1, 100, some 2), (1, 2, 100, none)]) :=
  applyJoins_invariant [0, 1] [(0, 1, 100, some 2), (1, 2, 100, none)]

/-- C6 counterexample: a register frame after a join retags the socket
without touching any session socket set — socket 0 stays attached to session
100 while its tag becomes user 2, who is not a participant, so the claimed
invariant fails for sequences mixing register and join frames. -/
theorem register_retags_joined_socket_cex :
    ¬ RelayInv (applyFrames (initState [0])
        [(0, ClientFrame.join (some 1) (some 100) none, 0),
         (0, ClientFrame.register (some 2), 1)]) := by
  intro h
  obtain ⟨hA, -⟩ := h
  obtain ⟨u2, ht, hmem⟩ :=
    hA 100 { users := [1], sockets := [0] } (by decide) 0 (by decide)
  have he : (applyFrames (initState [0])
      [(0, ClientFrame.join (some 1) (some 100) none, 0),
       (0, ClientFrame.register (some 2), 1)]).wsUserId.lookup 0 = some 2 := by
    decide
  rw [he] at ht
  have hu : u2 = 2 := (Option.some.inj ht).symm
  subst hu
  exact absurd hmem (by decide)

/-- Pointwise symmetry of the conversation query in its two user ids. -/
theorem matchQuery_symm (user1 user2 : Nat) (before : Option Nat)
    (m : MessageRec) :
    matchQuery user2 user1 before m = matchQuery user1 user2 before m := by
  unfold matchQuery
  rw [Bool.or_comm]

/-- Filtering with pointwise-equal predicates gives the same list. -/
theorem filter_ext {α : Type} (p q : α → Bool) (l : List α) (h : ∀ x, p x = q x) :
    l.filter p = l.filter q := by
  induction l with
  | nil => rfl
  | cons a as ih => rw [List.filter_cons, List.filter_cons, h a, ih]

/-- C9: the history query is direction-agnostic — swapping the two user ids
returns the identical sequence — and returns only messages matching the two
(sender, recipient) orientations and the exclusive before bound, exactly
min(limit, number of matches) of them, in ascending timestamp order, and they
are the most recent matches: any stored match left out has a timestamp at
most that of every returned message. -/
theorem findBetween_spec (store : List MessageRec) (userA userB lim : Nat)
    (before : Option Nat) :
    findBetween store userB userA lim before =
      findBetween store userA userB lim before ∧
    (∀ m ∈ findBetween store userA userB lim before,
      matchQuery userA userB before m = true) ∧
    (findBetween store userA userB lim before).length =
      min lim (store.filter (matchQuery userA userB before)).length ∧
    List.Pairwise (fun x y => x.timestamp ≤ y.timestamp)
      (findBetween store userA userB lim before) ∧
    (∀ m ∈ store, matchQuery userA userB before m = true →
      m ∉ findBetween store userA userB lim before →
      ∀ m2 ∈ findBetween store userA userB lim before,
        m.timestamp ≤ m2.timestamp) := by
  refine ⟨?_, ?_, ?_, ?_, ?_⟩
  · unfold findBetween
    rw [filter_ext _ _ store (matchQuery_symm userA userB before)]
  · intro m hm
    unfold findBetween at hm
    rw [List.mem_reverse] at hm
    have hm2 : m ∈ (store.filter (matchQuery userA userB before)).insertionSort
        tsDescRel := List.mem_of_mem_take hm
    rw [List.mem_insertionSort] at hm2
    exact (List.mem_filter.mp hm2).2
  · unfold findBetween
    rw [List.length_reverse, List.length_take, List.length_insertionSort]
  · unfold findBetween
    rw [List.pairwise_reverse]
    have hsorted : List.Pairwise tsDescRel
        ((store.filter (matchQuery userA userB before)).insertionSort tsDescRel) :=
      List.sorted_insertionSort tsDescRel _
    have htake : List.Pairwise tsDescRel
        (((store.filter (matchQuery userA userB before)).insertionSort
          tsDescRel).take lim) :=
      hsorted.sublist (List.take_sublist lim _)
    exact htake
  · intro m hm hq hnot m2 hm2
    unfold findBetween at hnot hm2
    rw [List.mem_reverse] at hm2
    have hmem : m ∈ (store.filter (matchQuery userA userB before)).insertionSort
        tsDescRel := by
      rw [List.mem_insertionSort]
      exact List.mem_filter.mpr ⟨hm, hq⟩
    have hnottake : m ∉ (((store.filter (matchQuery userA userB before)).insertionSort
        tsDescRel).take lim) := by
      intro hc
      exact hnot (List.mem_reverse.mpr hc)
    have hdrop : m ∈ (((store.filter (matchQuery userA userB before)).insertionSort
        tsDescRel).drop lim) := by
      have hall : m ∈ (((store.filter (matchQuery userA userB before)).insertionSort
          tsDescRel).take lim) ++
          (((store.filter (matchQuery userA userB before)).insertionSort
            tsDescRel).drop lim) := by
        rw [List.take_append_drop]
        exact hmem
      rcases List.mem_append.mp hall with h | h
      · exact absurd h hnottake
      · exact h
    have hsorted : List.Pairwise tsDescRel
        ((store.filter (matchQuery userA userB before)).insertionSort tsDescRel) :=
      List.sorted_insertionSort tsDescRel _
    have hsplitfull : List.Pairwise tsDescRel
        ((((store.filter (matchQuery userA userB before)).insertionSort
          tsDescRel).take lim) ++
         (((store.filter (matchQuery userA userB before)).insertionSort
          tsDescRel).drop lim)) := by
      rw [List.take_append_drop]
      exact hsorted
    exact (List.pairwise_append.mp hsplitfull).2.2 m2 hm2 m hdrop

/-- C9 witness: a one-message store, queried with the default limit. -/
theorem findBetween_spec_w :
    matchQuery 1 2 none
      { sender := 1, recipient := some 2, content := "a", replyTo := none,
        timestamp := 10 } = true :=
  (findBetween_spec
    [{ sender := 1, recipient := some 2, content := "a", replyTo := none,
       timestamp := 10 }] 1 2 30 none).2.1
    { sender := 1, recipient := some 2, content := "a", replyTo := none,
      timestamp := 10 } (by decide)
